import Mathlib

/-!
Shallow embedding of the `headlines` news application (Rust, eframe/egui)
for checking its natural-language specification.

The embedding models the native (non-wasm) build of
`src/headlines/src/headlines.rs` and `src/headlines/src/lib.rs`:

* the data model (`NewsCardData`, `HeadlinesConfig`, `Msg`, `Headlines`);
* the background fetcher thread spawned in `Headlines::init`, including
  which API keys it passes to the external `NewsAPI` client
  (`fetcherKeyFor`, `fetcherReceived`, `fetcherClientCalls`,
  `fetcherLoopIter`);
* `fetch_news`, parameterised by the external client's response and by
  whether channel sends succeed;
* the per-frame UI operations `preload_articles`, `render_top_panel`,
  `render_config`, and the frame dispatcher `App::update` (`update`).

Channels are modelled explicitly: the data queue is a FIFO `List
NewsCardData` (the fetcher appends at the back, `try_recv` takes the
front), the control channel is represented by the list of messages sent
on it, and a `send` failure (possible when the other endpoint was
dropped) is a Boolean parameter.  A Rust `.expect(..)` panic is modelled
by `UiResult.crash` carrying the panic message.
-/

/-- Result of a UI-side operation: either a normal result or a hard
crash via `.expect(msg)` (Rust panic). -/
inductive UiResult (α : Type) where
  | ok : α → UiResult α
  | crash : String → UiResult α
deriving DecidableEq, Repr

/-- `pub enum Msg { ApiKeySet(String), Refresh }` — the control messages
sent from the UI loop to the fetcher task. -/
inductive Msg where
  | ApiKeySet : String → Msg
  | Refresh : Msg
deriving DecidableEq, Repr

/-- `pub struct NewsCardData { title, description, url }` — one
displayable news record (the spec's ArticleRecord). -/
structure NewsCardData where
  title : String
  description : String
  url : String
deriving DecidableEq, Repr

/-- `pub struct HeadlinesConfig { dark_mode: bool, api_key: String }`. -/
structure HeadlinesConfig where
  dark_mode : Bool
  api_key : String
deriving DecidableEq, Repr

/-- `impl Default for HeadlinesConfig`: `dark_mode` defaults to `false`,
`api_key` to the empty string. -/
def HeadlinesConfig.default : HeadlinesConfig :=
  { dark_mode := false, api_key := "" }

/-- `pub struct Headlines` — the application state owned by the UI loop.
The channel endpoints `news_rx : Option<Receiver<NewsCardData>>` and
`app_tx : Option<SyncSender<Msg>>` are modelled by `Option Unit`
(presence only; the queue contents are threaded separately). -/
structure Headlines where
  articles : List NewsCardData
  config : HeadlinesConfig
  api_key_initialized : Bool
  news_rx : Option Unit
  app_tx : Option Unit
deriving DecidableEq, Repr

/-- `Headlines::new()`. -/
def Headlines.new : Headlines :=
  { articles := []
    config := HeadlinesConfig.default
    api_key_initialized := false
    news_rx := none
    app_tx := none }

/-- The state part of `Headlines::init`: load the persisted config when
storage is present (`unwrap_or_default` collapses a missing value into
the default, so `stored` is the config obtained from storage), set
`api_key_initialized = !config.api_key.is_empty()`, and install the two
channel endpoints.  The spawned fetcher thread is modelled separately by
`fetcherClientCalls`. -/
def Headlines.init (s : Headlines) (stored : Option HeadlinesConfig) : Headlines :=
  let s1 := match stored with
    | some cfg => { s with config := cfg, api_key_initialized := !cfg.api_key.isEmpty }
    | none => s
  { s1 with news_rx := some (), app_tx := some () }

/-- An article as returned by the external `NewsAPI` client: the code
reads only `a.title()` and `a.url()` from it. -/
structure Article where
  title : String
  url : String
deriving DecidableEq, Repr

/-- Outcome of `NewsAPI::new(api_key).fetch()`: a list of articles on
success, or a client failure. -/
inductive FetchResult where
  | ok : List Article → FetchResult
  | err : FetchResult
deriving DecidableEq, Repr

/-- The record `fetch_news` builds for one article: title and url are
copied from the article, description is the hard-coded placeholder. -/
def mkNewsCard (a : Article) : NewsCardData :=
  { title := a.title, url := a.url, description := "default description" }

/-- `fetch_news(api_key, news_tx)`, given the client's response `resp`
and whether sends on `news_tx` succeed.  Returns the records actually
delivered to the data queue and the log lines emitted.  On `Ok`, each
article is mapped through `mkNewsCard` and sent (a failed send is logged
via `tracing::error!` and the loop continues); there is no `else`
branch, so on `Err` nothing at all happens. -/
def fetch_news (resp : FetchResult) (sendOk : Bool) : List NewsCardData × List String :=
  match resp with
  | FetchResult.ok arts =>
      let cards := arts.map mkNewsCard
      if sendOk then (cards, [])
      else ([], cards.map fun _ => "Error sending news data")
  | FetchResult.err => ([], [])

/-- The API key the fetcher-thread loop passes to `fetch_news` for one
received message.  In `Ok(Msg::ApiKeySet(api_key)) => fetch_news(&api_key, ..)`
the binder shadows the outer capture, so the new key `k` is used; in
`Ok(Msg::Refresh) => fetch_news(&api_key, ..)` the `api_key` is the
*outer* capture, i.e. the startup key. -/
def fetcherKeyFor (startupKey : String) (m : Msg) : String :=
  match m with
  | Msg.ApiKeySet k => k
  | Msg.Refresh => startupKey

/-- The control messages the fetcher thread ever receives, given the
startup key and the messages sent on the control channel, in order.
When the startup key is non-empty the thread calls `fetch_news` once and
returns without entering the receive loop, so nothing is ever
received. -/
def fetcherReceived (startupKey : String) (sent : List Msg) : List Msg :=
  if startupKey.isEmpty then sent else []

/-- The sequence of API keys with which the fetcher thread invokes the
external client, given the startup key and the messages sent on the
control channel: a single call with the startup key when it is
non-empty (`if !api_key.is_empty() { fetch_news(&api_key, &news_tx); }`),
otherwise one call per received message with `fetcherKeyFor`. -/
def fetcherClientCalls (startupKey : String) (sent : List Msg) : List String :=
  if startupKey.isEmpty then sent.map (fetcherKeyFor startupKey)
  else [startupKey]

/-- One iteration of the fetcher's receive loop, `recvd = none` meaning
`app_rx.recv()` returned `Err`: result is the key fetched with (if any)
and the log lines emitted.  A receive failure is logged and the loop
continues. -/
def fetcherLoopIter (startupKey : String) (recvd : Option Msg) : Option String × List String :=
  match recvd with
  | some m => (some (fetcherKeyFor startupKey m), [])
  | none => (none, ["failed receiving msg"])

/-- Observable side effects of a UI-side operation within a frame, in
program order: clearing the display list, sending a control message. -/
inductive UiEvent where
  | cleared : UiEvent
  | sent : Msg → UiEvent
deriving DecidableEq, Repr

/-- `Headlines::preload_articles`: a single `rx.try_recv()` on the data
queue; on `Ok` the record is pushed onto `articles`, on `Err` nothing
happens (the `tracing::warn!` in that arm is commented out). The queue
is FIFO: `try_recv` takes the front. -/
def preload_articles (s : Headlines) (q : List NewsCardData) :
    Headlines × List NewsCardData :=
  match s.news_rx with
  | none => (s, q)
  | some _ =>
      match q with
      | [] => (s, q)
      | c :: rest => ({ s with articles := s.articles ++ [c] }, rest)

/-- The theme button at the end of `render_top_panel`: when clicked it
flips `config.dark_mode`. -/
def applyTheme (s : Headlines) (clicked : Bool) : Headlines :=
  if clicked then { s with config := { s.config with dark_mode := !s.config.dark_mode } }
  else s

/-- `Headlines::render_top_panel` (the close button only calls
`frame.quit` and is not modelled).  If the refresh button was clicked:
`self.articles.clear()` first, then — if `app_tx` is present —
`tx.send(Msg::Refresh).expect("Failed sending refresh event")`, whose
failure is a hard crash.  The theme button is handled afterwards. -/
def render_top_panel (s : Headlines) (refreshClicked themeClicked sendOk : Bool) :
    UiResult (Headlines × List UiEvent) :=
  if refreshClicked then
    let s1 := { s with articles := [] }
    match s.app_tx with
    | some _ =>
        if sendOk then
          UiResult.ok (applyTheme s1 themeClicked, [UiEvent.cleared, UiEvent.sent Msg.Refresh])
        else UiResult.crash "Failed sending refresh event"
    | none => UiResult.ok (applyTheme s1 themeClicked, [UiEvent.cleared])
  else
    UiResult.ok (applyTheme s themeClicked, [])

/-- `Headlines::render_config`: the single-line text edit writes the
typed text into `config.api_key` (`typed = none` models a frame without
editing); then, if the input lost focus with Enter pressed
(`submitKey`), `api_key_initialized` is set to `true` unconditionally
and — if `app_tx` is present —
`tx.send(Msg::ApiKeySet(..)).expect("Failed sending ApiKeySet event")`,
whose failure is a hard crash. -/
def render_config (s : Headlines) (typed : Option String) (submitKey sendOk : Bool) :
    UiResult (Headlines × List UiEvent) :=
  let s0 := match typed with
    | some t => { s with config := { s.config with api_key := t } }
    | none => s
  if submitKey then
    let s1 := { s0 with api_key_initialized := true }
    match s0.app_tx with
    | some _ =>
        if sendOk then
          UiResult.ok (s1, [UiEvent.sent (Msg.ApiKeySet s0.config.api_key)])
        else UiResult.crash "Failed sending ApiKeySet event"
    | none => UiResult.ok (s1, [])
  else
    UiResult.ok (s0, [])

/-- What the central panel of one frame shows: the configuration prompt,
the "Loading ⌛" heading, or the header plus news cards. -/
inductive View where
  | config : View
  | loading : View
  | displaying : View
deriving DecidableEq, Repr

/-- Per-frame user input: the text typed into the config field (if
any), whether the config input was submitted with Enter, and whether
the refresh / theme buttons were clicked. -/
structure FrameInput where
  typed : Option String
  submitKey : Bool
  refreshClicked : Bool
  themeClicked : Bool
deriving DecidableEq, Repr

/-- `App::update` for `Headlines` (lib.rs): when `api_key_initialized`
is false, only `render_config` runs and the config prompt is shown;
otherwise `preload_articles` runs, then `render_top_panel`, and the
central panel shows "Loading" when `articles.is_empty()` and the
header plus news cards otherwise.  Returns the new state, the remaining
queue, the emitted events in order, and the rendered view. -/
def update (s : Headlines) (q : List NewsCardData) (inp : FrameInput) (sendOk : Bool) :
    UiResult (Headlines × List NewsCardData × List UiEvent × View) :=
  if !s.api_key_initialized then
    match render_config s inp.typed inp.submitKey sendOk with
    | UiResult.crash e => UiResult.crash e
    | UiResult.ok (s1, evts) => UiResult.ok (s1, q, evts, View.config)
  else
    match render_top_panel (preload_articles s q).1 inp.refreshClicked inp.themeClicked sendOk with
    | UiResult.crash e => UiResult.crash e
    | UiResult.ok (s2, evts) =>
        UiResult.ok (s2, (preload_articles s q).2, evts,
          if s2.articles.isEmpty then View.loading else View.displaying)

/-! Concrete states and inputs used by witnesses and counterexamples. -/

/-- The state after `Headlines::new().init(cc)` with storage holding the
default config (empty API key): awaiting the API key, channels
installed. -/
def awaitState : Headlines := Headlines.init Headlines.new (some HeadlinesConfig.default)

/-- A frame where the (empty) config input is submitted with Enter. -/
def submitEmptyInput : FrameInput :=
  { typed := none, submitKey := true, refreshClicked := false, themeClicked := false }

/-- A frame with no user interaction at all. -/
def noInput : FrameInput :=
  { typed := none, submitKey := false, refreshClicked := false, themeClicked := false }

/-- A frame where only the refresh button is clicked. -/
def refreshInput : FrameInput :=
  { typed := none, submitKey := false, refreshClicked := true, themeClicked := false }

/-- A sample news record. -/
def cardA : NewsCardData := { title := "t1", description := "d1", url := "u1" }

/-- A running state: key initialized, one article on display. -/
def readyState : Headlines :=
  { articles := [cardA]
    config := { dark_mode := false, api_key := "k" }
    api_key_initialized := true
    news_rx := some ()
    app_tx := some () }

/-- A running state with an empty display list (Loading screen). -/
def loadingState : Headlines := { readyState with articles := [] }

/-- Frame outcome of submitting the empty key from `awaitState`. -/
def submitOut : Headlines × List NewsCardData × List UiEvent × View :=
  ({ awaitState with api_key_initialized := true }, [],
    [UiEvent.sent (Msg.ApiKeySet "")], View.config)

/-- Frame outcome of clicking refresh in `readyState`. -/
def refreshOut : Headlines × List NewsCardData × List UiEvent × View :=
  ({ readyState with articles := [] }, [],
    [UiEvent.cleared, UiEvent.sent Msg.Refresh], View.loading)

/-- Frame outcome of an interaction-free frame in `readyState`. -/
def displayOut : Headlines × List NewsCardData × List UiEvent × View :=
  (readyState, [], [], View.displaying)

/-- Frame outcome of an interaction-free frame in `loadingState`. -/
def loadingOut : Headlines × List NewsCardData × List UiEvent × View :=
  (loadingState, [], [], View.loading)

/-! Helper lemmas about the embedded operations. -/

@[simp] theorem applyTheme_articles (s : Headlines) (c : Bool) :
    (applyTheme s c).articles = s.articles := by
  cases c <;> simp [applyTheme]

@[simp] theorem applyTheme_api_key_initialized (s : Headlines) (c : Bool) :
    (applyTheme s c).api_key_initialized = s.api_key_initialized := by
  cases c <;> simp [applyTheme]

@[simp] theorem applyTheme_app_tx (s : Headlines) (c : Bool) :
    (applyTheme s c).app_tx = s.app_tx := by
  cases c <;> simp [applyTheme]

@[simp] theorem applyTheme_news_rx (s : Headlines) (c : Bool) :
    (applyTheme s c).news_rx = s.news_rx := by
  cases c <;> simp [applyTheme]

@[simp] theorem applyTheme_api_key (s : Headlines) (c : Bool) :
    (applyTheme s c).config.api_key = s.config.api_key := by
  cases c <;> simp [applyTheme]

@[simp] theorem preload_articles_nil (s : Headlines) :
    preload_articles s [] = (s, []) := by
  cases hrx : s.news_rx <;> simp [preload_articles, hrx]

theorem preload_articles_fields (s : Headlines) (q : List NewsCardData) :
    (preload_articles s q).1.api_key_initialized = s.api_key_initialized ∧
    (preload_articles s q).1.app_tx = s.app_tx ∧
    (preload_articles s q).1.news_rx = s.news_rx ∧
    (preload_articles s q).1.config = s.config := by
  cases hrx : s.news_rx with
  | none => simp [preload_articles, hrx]
  | some u =>
    cases q with
    | nil => simp [preload_articles, hrx]
    | cons c rest => simp [preload_articles, hrx]

theorem render_top_panel_ok_fields (s : Headlines) (r t so : Bool) (s' : Headlines)
    (evts : List UiEvent) (h : render_top_panel s r t so = UiResult.ok (s', evts)) :
    s'.api_key_initialized = s.api_key_initialized ∧ s'.app_tx = s.app_tx ∧
    s'.news_rx = s.news_rx ∧ s'.config.api_key = s.config.api_key := by
  unfold render_top_panel at h
  cases r with
  | false =>
    obtain ⟨h1, h2⟩ := by simpa using h
    subst h1
    simp
  | true =>
    cases htx : s.app_tx with
    | none =>
      simp only [htx] at h
      obtain ⟨h1, h2⟩ := by simpa using h
      subst h1
      simp [htx]
    | some u =>
      cases so with
      | false => simp [htx] at h
      | true =>
        simp only [htx] at h
        obtain ⟨h1, h2⟩ := by simpa using h
        subst h1
        simp [htx]

theorem render_top_panel_articles (s : Headlines) (r t so : Bool) (s' : Headlines)
    (evts : List UiEvent) (h : render_top_panel s r t so = UiResult.ok (s', evts)) :
    s'.articles = (if r then [] else s.articles) := by
  unfold render_top_panel at h
  cases r with
  | false =>
    obtain ⟨h1, h2⟩ := by simpa using h
    subst h1
    simp
  | true =>
    cases htx : s.app_tx with
    | none =>
      simp only [htx] at h
      obtain ⟨h1, h2⟩ := by simpa using h
      subst h1
      simp
    | some u =>
      cases so with
      | false => simp [htx] at h
      | true =>
        simp only [htx] at h
        obtain ⟨h1, h2⟩ := by simpa using h
        subst h1
        simp

theorem render_top_panel_refresh (s : Headlines) (t so : Bool) (s' : Headlines)
    (evts : List UiEvent) (h : render_top_panel s true t so = UiResult.ok (s', evts)) :
    s'.articles = [] ∧
    (s.app_tx ≠ none → evts = [UiEvent.cleared, UiEvent.sent Msg.Refresh]) ∧
    (s.app_tx = none → evts = [UiEvent.cleared]) := by
  have harts := render_top_panel_articles s true t so s' evts h
  simp only [if_pos rfl] at harts
  refine ⟨by simpa using harts, ?_, ?_⟩
  · intro htx
    unfold render_top_panel at h
    cases hx : s.app_tx with
    | none => exact absurd hx htx
    | some u =>
      cases so with
      | false => simp [hx] at h
      | true =>
        simp only [hx] at h
        obtain ⟨h1, h2⟩ := by simpa using h
        exact h2.symm
  · intro hx
    unfold render_top_panel at h
    simp only [hx] at h
    obtain ⟨h1, h2⟩ := by simpa using h
    exact h2.symm

theorem render_config_ok_fields (s : Headlines) (typed : Option String) (sub so : Bool)
    (s' : Headlines) (evts : List UiEvent)
    (h : render_config s typed sub so = UiResult.ok (s', evts)) :
    s'.api_key_initialized = (sub || s.api_key_initialized) ∧
    s'.articles = s.articles ∧ s'.app_tx = s.app_tx ∧ s'.news_rx = s.news_rx := by
  unfold render_config at h
  cases typed with
  | none =>
    cases sub with
    | false =>
      obtain ⟨h1, h2⟩ := by simpa using h
      subst h1
      simp
    | true =>
      cases htx : s.app_tx with
      | none =>
        simp only [htx] at h
        obtain ⟨h1, h2⟩ := by simpa using h
        subst h1
        simp [htx]
      | some u =>
        cases so with
        | false => simp [htx] at h
        | true =>
          simp only [htx] at h
          obtain ⟨h1, h2⟩ := by simpa using h
          subst h1
          simp [htx]
  | some tt =>
    cases sub with
    | false =>
      obtain ⟨h1, h2⟩ := by simpa using h
      subst h1
      simp
    | true =>
      cases htx : s.app_tx with
      | none =>
        simp only [htx] at h
        obtain ⟨h1, h2⟩ := by simpa using h
        subst h1
        simp [htx]
      | some u =>
        cases so with
        | false => simp [htx] at h
        | true =>
          simp only [htx] at h
          obtain ⟨h1, h2⟩ := by simpa using h
          subst h1
          simp [htx]

theorem update_ok_elim (s : Headlines) (q : List NewsCardData) (inp : FrameInput)
    (sendOk : Bool) (out : Headlines × List NewsCardData × List UiEvent × View)
    (hinit : s.api_key_initialized = true)
    (h : update s q inp sendOk = UiResult.ok out) :
    ∃ s2 evts,
      render_top_panel (preload_articles s q).1 inp.refreshClicked inp.themeClicked sendOk =
        UiResult.ok (s2, evts) ∧
      out = (s2, (preload_articles s q).2, evts,
        if s2.articles.isEmpty then View.loading else View.displaying) := by
  unfold update at h
  rw [hinit] at h
  simp only [Bool.not_true] at h
  rw [if_neg (by decide)] at h
  cases hr : render_top_panel (preload_articles s q).1 inp.refreshClicked inp.themeClicked
      sendOk with
  | crash e => rw [hr] at h; simp at h
  | ok pr =>
    obtain ⟨s2, evts⟩ := pr
    rw [hr] at h
    exact ⟨s2, evts, rfl, by simpa using h.symm⟩

theorem update_config_elim (s : Headlines) (q : List NewsCardData) (inp : FrameInput)
    (sendOk : Bool) (out : Headlines × List NewsCardData × List UiEvent × View)
    (hinit : s.api_key_initialized = false)
    (h : update s q inp sendOk = UiResult.ok out) :
    ∃ s1 evts, render_config s inp.typed inp.submitKey sendOk = UiResult.ok (s1, evts) ∧
      out = (s1, q, evts, View.config) := by
  unfold update at h
  rw [hinit] at h
  simp only [Bool.not_false] at h
  rw [if_pos trivial] at h
  cases hr : render_config s inp.typed inp.submitKey sendOk with
  | crash e => rw [hr] at h; simp at h
  | ok pr =>
    obtain ⟨s1, evts⟩ := pr
    rw [hr] at h
    exact ⟨s1, evts, rfl, by simpa using h.symm⟩

/-! Claims. -/

/-- C1 counterexample: with an empty startup key, after `ApiKeySet "abc"`
a `Refresh` message makes the fetcher call the client with the captured
startup key `""`, not with the most recently set key `"abc"` (the
`Msg::Refresh` arm reads the outer `api_key` capture). -/
theorem c1_counterexample :
    fetcherClientCalls "" [Msg.ApiKeySet "abc", Msg.Refresh] = ["abc", ""] ∧
    ("" : String) ≠ "abc" := by
  decide

/-- C1 (amended): each control message received by the fetcher triggers
exactly one client invocation — with `k` for `ApiKeySet k`, but for
`Refresh` with the startup key captured at `init` (which is empty
whenever the receive loop runs at all), not with the most recently set
key; when the startup key is non-empty the fetcher calls the client once
with it and never receives any message (the thread returns without
entering the receive loop). -/
theorem c1_amended_fetcher_calls (startupKey : String) (sent : List Msg) :
    (startupKey.isEmpty = true →
      fetcherReceived startupKey sent = sent ∧
      fetcherClientCalls startupKey sent = sent.map (fetcherKeyFor startupKey) ∧
      (fetcherClientCalls startupKey sent).length = sent.length) ∧
    (startupKey.isEmpty = false →
      fetcherReceived startupKey sent = [] ∧
      fetcherClientCalls startupKey sent = [startupKey]) := by
  constructor
  · intro hk
    simp [fetcherReceived, fetcherClientCalls, hk]
  · intro hk
    simp [fetcherReceived, fetcherClientCalls, hk]

/-- Witness for `c1_amended_fetcher_calls` at an empty startup key and a
concrete message sequence. -/
theorem c1_amended_witness :
    ("" : String).isEmpty = true ∧
    (fetcherReceived "" [Msg.ApiKeySet "a", Msg.Refresh] = [Msg.ApiKeySet "a", Msg.Refresh] ∧
      fetcherClientCalls "" [Msg.ApiKeySet "a", Msg.Refresh] =
        [Msg.ApiKeySet "a", Msg.Refresh].map (fetcherKeyFor "") ∧
      (fetcherClientCalls "" [Msg.ApiKeySet "a", Msg.Refresh]).length =
        [Msg.ApiKeySet "a", Msg.Refresh].length) :=
  ⟨by decide, (c1_amended_fetcher_calls "" [Msg.ApiKeySet "a", Msg.Refresh]).1 (by decide)⟩

/-- C4 counterexample: for an article whose title and url are empty
strings, `fetch_news` enqueues a record whose title is the empty string —
the code never checks emptiness — refuting the claim that every enqueued
record has non-empty title and url. -/
theorem c4_counterexample :
    (fetch_news (FetchResult.ok [{ title := "", url := "" }]) true).1 =
      [{ title := "", description := "default description", url := "" }] ∧
    ({ title := "", description := "default description", url := "" } : NewsCardData).title
      = "" := by
  decide

/-- C4 (amended): for every article of a successful response exactly one
record is enqueued (count preserved, in response order) whose title and
url equal the article's — possibly empty — title and url, and whose
description is the hard-coded placeholder "default description". -/
theorem c4_amended_one_record_per_article (arts : List Article) :
    (fetch_news (FetchResult.ok arts) true).1 = arts.map mkNewsCard ∧
    (fetch_news (FetchResult.ok arts) true).1.length = arts.length ∧
    ∀ a : Article, (mkNewsCard a).title = a.title ∧ (mkNewsCard a).url = a.url ∧
      (mkNewsCard a).description = "default description" :=
  ⟨rfl, by simp [fetch_news], fun _ => ⟨rfl, rfl, rfl⟩⟩

/-- C5 counterexample: on client failure the native `fetch_news` emits no
log line at all (its `if let Ok` has no `else` branch), refuting the
claim that the fetcher logs the failure; the batch is indeed dropped
(no records are enqueued). -/
theorem c5_counterexample :
    (fetch_news FetchResult.err true).2 = [] ∧ (fetch_news FetchResult.err true).1 = [] := by
  decide

/-- C5 (amended): on client failure `fetch_news` enqueues no records and
— in the native path — emits no log either (the batch is dropped
silently and atomically, with no retry and no partial results); with
nothing enqueued, a frame on the empty queue keeps the display list
empty and renders the Loading view. -/
theorem c5_amended_failure_drops_batch (sendOk : Bool) (s : Headlines) (inp : FrameInput)
    (out : Headlines × List NewsCardData × List UiEvent × View)
    (hinit : s.api_key_initialized = true) (hart : s.articles = [])
    (h : update s [] inp sendOk = UiResult.ok out) :
    fetch_news FetchResult.err sendOk = ([], []) ∧
    out.1.articles = [] ∧ out.2.2.2 = View.loading := by
  obtain ⟨s2, evts, hr, hout⟩ := update_ok_elim s [] inp sendOk out hinit h
  have harts := render_top_panel_articles _ _ _ _ _ _ hr
  simp only [preload_articles_nil, hart, ite_self] at harts
  refine ⟨by cases sendOk <;> rfl, by rw [hout]; exact harts, by rw [hout]; simp [harts]⟩

/-- Witness for `c5_amended_failure_drops_batch` at the concrete
Loading-screen state with an interaction-free frame. -/
theorem c5_amended_witness :
    loadingState.api_key_initialized = true ∧ loadingState.articles = [] ∧
    update loadingState [] noInput true = UiResult.ok loadingOut ∧
    (fetch_news FetchResult.err true = ([], []) ∧
      loadingOut.1.articles = [] ∧ loadingOut.2.2.2 = View.loading) :=
  ⟨rfl, rfl, by decide,
    c5_amended_failure_drops_batch true loadingState noInput loadingOut rfl rfl (by decide)⟩

/-- C6: `preload_articles` performs a single non-blocking `try_recv` per
frame tick: the display list grows by at most one, its previous elements
are unchanged and in order, and either nothing changes or the queue's
front record is appended at the end of the display list. -/
theorem c6_preload_drains_at_most_one (s : Headlines) (q : List NewsCardData) :
    (preload_articles s q).1.articles.length ≤ s.articles.length + 1 ∧
    (preload_articles s q).1.articles.take s.articles.length = s.articles ∧
    ((preload_articles s q).1.articles = s.articles ∧ (preload_articles s q).2 = q ∨
      ∃ c, q = c :: (preload_articles s q).2 ∧
        (preload_articles s q).1.articles = s.articles ++ [c]) := by
  cases hrx : s.news_rx with
  | none => simp [preload_articles, hrx]
  | some u =>
    cases q with
    | nil => simp [preload_articles, hrx]
    | cons c rest =>
      refine ⟨?_, ?_, Or.inr ⟨c, ?_, ?_⟩⟩ <;>
        simp [preload_articles, hrx, List.take_left]

/-- C9: clicking the theme toggle flips only `config.dark_mode`; the
display list, the api_key, the api_key_initialized flag and both channel
endpoints are untouched (the result is a record update of `dark_mode`
alone), and no control message is sent. -/
theorem c9_theme_toggle_flips_only_dark_mode (s : Headlines) (sendOk : Bool) :
    render_top_panel s false true sendOk =
      UiResult.ok ({ s with config := { s.config with dark_mode := !s.config.dark_mode } },
        []) := rfl

/-- C2 counterexample: from the awaiting state with the empty API key,
pressing Enter on the empty input sets `api_key_initialized` to `true`
(and sends `ApiKeySet ""`), refuting the claim that the flag stays false
for every frame even if the user presses Enter on the empty input. -/
theorem c2_counterexample :
    awaitState.config.api_key = "" ∧ awaitState.api_key_initialized = false ∧
    update awaitState [] submitEmptyInput true = UiResult.ok submitOut ∧
    submitOut.1.api_key_initialized = true :=
  ⟨rfl, rfl, by decide, rfl⟩

/-- C2 (amended): while the key is not initialized every frame renders
the configuration prompt, and the flag changes only through submission:
without an Enter submission `api_key_initialized` stays false whatever
is typed, but a submission sets it to true even when the submitted key
is the empty string, after which the content view replaces the
prompt. -/
theorem c2_amended_only_submission_initializes (s : Headlines) (q : List NewsCardData)
    (inp : FrameInput) (sendOk : Bool)
    (out : Headlines × List NewsCardData × List UiEvent × View)
    (hinit : s.api_key_initialized = false)
    (h : update s q inp sendOk = UiResult.ok out) :
    out.2.2.2 = View.config ∧
    (inp.submitKey = false → out.1.api_key_initialized = false) ∧
    (inp.submitKey = true → out.1.api_key_initialized = true) := by
  obtain ⟨s1, evts, hr, hout⟩ := update_config_elim s q inp sendOk out hinit h
  have hf := render_config_ok_fields _ _ _ _ _ _ hr
  refine ⟨by rw [hout], ?_, ?_⟩
  · intro hsub
    rw [hout]
    simpa [hsub, hinit] using hf.1
  · intro hsub
    rw [hout]
    simpa [hsub] using hf.1

/-- Witness for `c2_amended_only_submission_initializes` at the concrete
awaiting state with an empty-input submission. -/
theorem c2_amended_witness :
    awaitState.api_key_initialized = false ∧
    update awaitState [] submitEmptyInput true = UiResult.ok submitOut ∧
    (submitOut.2.2.2 = View.config ∧
      (submitEmptyInput.submitKey = false → submitOut.1.api_key_initialized = false) ∧
      (submitEmptyInput.submitKey = true → submitOut.1.api_key_initialized = true)) :=
  ⟨rfl, by decide,
    c2_amended_only_submission_initializes awaitState [] submitEmptyInput true submitOut rfl
      (by decide)⟩

/-- C3: when the user clicks refresh with the key initialized, the
display list is cleared and, with the sender endpoint present, the
frame's event trace is exactly [cleared, sent Refresh]: the clear
strictly precedes the send, and the frame ends with an empty display
list — so any record appended later (by `preload_articles` in a later
frame) lands on the cleared list. -/
theorem c3_refresh_clears_before_send (s : Headlines) (q : List NewsCardData)
    (inp : FrameInput) (sendOk : Bool)
    (out : Headlines × List NewsCardData × List UiEvent × View)
    (hinit : s.api_key_initialized = true) (href : inp.refreshClicked = true)
    (h : update s q inp sendOk = UiResult.ok out) :
    out.1.articles = [] ∧
    (s.app_tx ≠ none → out.2.2.1 = [UiEvent.cleared, UiEvent.sent Msg.Refresh]) ∧
    (s.app_tx = none → out.2.2.1 = [UiEvent.cleared]) := by
  obtain ⟨s2, evts, hr, hout⟩ := update_ok_elim s q inp sendOk out hinit h
  rw [href] at hr
  have hrefresh := render_top_panel_refresh _ _ _ _ _ hr
  have hp := preload_articles_fields s q
  refine ⟨by rw [hout]; exact hrefresh.1, ?_, ?_⟩
  · intro htx
    rw [hout]
    exact hrefresh.2.1 (by rw [hp.2.1]; exact htx)
  · intro htx
    rw [hout]
    exact hrefresh.2.2 (by rw [hp.2.1]; exact htx)

/-- Witness for `c3_refresh_clears_before_send` at the concrete running
state with one displayed article. -/
theorem c3_witness :
    readyState.api_key_initialized = true ∧ refreshInput.refreshClicked = true ∧
    update readyState [] refreshInput true = UiResult.ok refreshOut ∧
    (refreshOut.1.articles = [] ∧
      (readyState.app_tx ≠ none →
        refreshOut.2.2.1 = [UiEvent.cleared, UiEvent.sent Msg.Refresh]) ∧
      (readyState.app_tx = none → refreshOut.2.2.1 = [UiEvent.cleared])) :=
  ⟨rfl, rfl, by decide,
    c3_refresh_clears_before_send readyState [] refreshInput true refreshOut rfl rfl (by decide)⟩

/-- C7: once the key is initialized, a frame renders the Loading view
iff the display list (as checked by the central panel, i.e. after this
frame's drain and button handling) is empty, and the Displaying view
(header plus news cards) iff it is non-empty. -/
theorem c7_loading_iff_empty_display (s : Headlines) (q : List NewsCardData)
    (inp : FrameInput) (sendOk : Bool)
    (out : Headlines × List NewsCardData × List UiEvent × View)
    (hinit : s.api_key_initialized = true)
    (h : update s q inp sendOk = UiResult.ok out) :
    (out.2.2.2 = View.loading ↔ out.1.articles = []) ∧
    (out.2.2.2 = View.displaying ↔ out.1.articles ≠ []) := by
  obtain ⟨s2, evts, hr, hout⟩ := update_ok_elim s q inp sendOk out hinit h
  rw [hout]
  cases harts : s2.articles with
  | nil => simp [harts]
  | cons c rest => simp [harts]

/-- Witness for `c7_loading_iff_empty_display` at the concrete running
state with one displayed article and no interaction. -/
theorem c7_witness :
    readyState.api_key_initialized = true ∧
    update readyState [] noInput true = UiResult.ok displayOut ∧
    ((displayOut.2.2.2 = View.loading ↔ displayOut.1.articles = []) ∧
      (displayOut.2.2.2 = View.displaying ↔ displayOut.1.articles ≠ [])) :=
  ⟨rfl, by decide,
    c7_loading_iff_empty_display readyState [] noInput true displayOut rfl (by decide)⟩

/-- C8 counterexample: two, not one, channel code paths hard-crash on a
send failure via `.expect`: the Refresh send in `render_top_panel` and
the ApiKeySet send in `render_config` — refuting "exactly one code
path". -/
theorem c8_counterexample :
    render_top_panel awaitState true false false =
      UiResult.crash "Failed sending refresh event" ∧
    render_config awaitState none true false =
      UiResult.crash "Failed sending ApiKeySet event" := by
  decide

/-- C8 (amended): channel failure handling is as follows — the Refresh
send and the ApiKeySet send both hard-crash via `.expect` on failure;
the fetcher's `recv` failure is logged and the loop continues;
`fetch_news`'s send failures are logged (one line per failed send) and
the loop continues; and `preload_articles`' `try_recv` failure is
silently ignored (its log statement is commented out), leaving the state
unchanged. -/
theorem c8_amended_channel_failure_behaviors (s : Headlines) (k : String)
    (arts : List Article) (htx : s.app_tx = some ()) :
    render_top_panel s true false false = UiResult.crash "Failed sending refresh event" ∧
    render_config s none true false = UiResult.crash "Failed sending ApiKeySet event" ∧
    fetcherLoopIter k none = (none, ["failed receiving msg"]) ∧
    ((fetch_news (FetchResult.ok arts) false).1 = [] ∧
      (fetch_news (FetchResult.ok arts) false).2.length = arts.length) ∧
    preload_articles s [] = (s, []) := by
  refine ⟨?_, ?_, rfl, ⟨?_, ?_⟩, preload_articles_nil s⟩
  · simp [render_top_panel, htx]
  · simp [render_config, htx]
  · simp [fetch_news]
  · simp [fetch_news]

/-- Witness for `c8_amended_channel_failure_behaviors` at the concrete
awaiting state. -/
theorem c8_amended_witness :
    awaitState.app_tx = some () ∧
    (render_top_panel awaitState true false false =
        UiResult.crash "Failed sending refresh event" ∧
      render_config awaitState none true false =
        UiResult.crash "Failed sending ApiKeySet event" ∧
      fetcherLoopIter "" none = (none, ["failed receiving msg"]) ∧
      ((fetch_news (FetchResult.ok [{ title := "t", url := "u" }]) false).1 = [] ∧
        (fetch_news (FetchResult.ok [{ title := "t", url := "u" }]) false).2.length =
          [({ title := "t", url := "u" } : Article)].length) ∧
      preload_articles awaitState [] = (awaitState, [])) :=
  ⟨rfl, c8_amended_channel_failure_behaviors awaitState "" [{ title := "t", url := "u" }] rfl⟩

/-- C10: `api_key_initialized` is monotone across the UI loop: any frame
that starts with the flag true (whatever the user does — refresh, theme
toggle, typing, submission) ends with the flag still true, and the
rendered view is never the configuration prompt again. -/
theorem c10_initialized_monotone (s : Headlines) (q : List NewsCardData)
    (inp : FrameInput) (sendOk : Bool)
    (out : Headlines × List NewsCardData × List UiEvent × View)
    (hinit : s.api_key_initialized = true)
    (h : update s q inp sendOk = UiResult.ok out) :
    out.1.api_key_initialized = true ∧ out.2.2.2 ≠ View.config := by
  obtain ⟨s2, evts, hr, hout⟩ := update_ok_elim s q inp sendOk out hinit h
  have hf := render_top_panel_ok_fields _ _ _ _ _ _ hr
  have hp := preload_articles_fields s q
  rw [hout]
  constructor
  · show s2.api_key_initialized = true
    rw [hf.1, hp.1, hinit]
  · show (if s2.articles.isEmpty then View.loading else View.displaying) ≠ View.config
    cases hb : s2.articles.isEmpty <;> simp [hb]

/-- Witness for `c10_initialized_monotone` at the concrete running state
with no interaction. -/
theorem c10_witness :
    readyState.api_key_initialized = true ∧
    update readyState [] noInput true = UiResult.ok displayOut ∧
    (displayOut.1.api_key_initialized = true ∧ displayOut.2.2.2 ≠ View.config) :=
  ⟨rfl, by decide,
    c10_initialized_monotone readyState [] noInput true displayOut rfl (by decide)⟩
